import Mathlib

/-!
Verification of the driving-simulation core of `milesofsolitude`.

The source is TypeScript; its number type is modelled by `ℚ` wherever the
code performs only field operations and comparisons on literals, and by `ℝ`
for the fuel subsystem, whose formulas contain `Math.PI`.  Angles that the
code obtains as `draw * Math.PI` (prop rotations) are recorded as the raw
draw, i.e. as the rotation divided by the fixed positive constant, so that
equality of recorded values is equality of rotations.

Embedded components and their sources:
* fixed-step scheduler        — src/core/Engine.ts (`Engine.loop`),
                                constants from utils/constants.ts
* EngineSimulation            — vehicle engine file (clutch-engagement variant)
* FuelSystem                  — vehicle fuel file
* Transmission                — src/systems/vehicle/Transmission.ts
                                (both captured variants: automatic, manual)
* VehicleController.fixedUpdate (drivetrain part) — vehicle controller file
* RoadManager.updateChunks / findClosestT — src/systems/road/RoadManager.ts
* RoadsideProps.generateProps — src/systems/road/RoadManager.ts
                                (PROP_DENSITY = 0.003 variant)
-/

/-- `clamp` from utils/math.ts: `Math.max(lo, Math.min(hi, value))`. -/
def clamp (value lo hi : ℚ) : ℚ := max lo (min hi value)

/-- `lerp` from utils/math.ts: `a + (b - a) * t`. -/
def lerp (a b t : ℚ) : ℚ := a + (b - a) * t

/-- `clamp` over ℝ, for the fuel subsystem (same formula). -/
def clampR (value lo hi : ℝ) : ℝ := max lo (min hi value)

/-! ## Fixed-step scheduler (src/core/Engine.ts) -/

/-- `PHYSICS_TIMESTEP = 1 / 60` from utils/constants.ts. -/
def PHYSICS_TIMESTEP : ℚ := 1 / 60

/-- `MAX_SUBSTEPS = 5` from utils/constants.ts. -/
def MAX_SUBSTEPS : ℕ := 5

/-- Result of one `Engine.loop` frame: the accumulator left after the substep
loop, the blend factor passed to render callbacks, and the number of times
the fixed-update callbacks were invoked. -/
structure FrameResult where
  accumulator : ℚ
  alpha : ℚ
  steps : ℕ
  deriving DecidableEq, Repr

/-- The `while (accumulator >= PHYSICS_TIMESTEP && steps < MAX_SUBSTEPS)`
loop of `Engine.loop`, with `budget` the number of substeps still allowed.
Returns the final accumulator and the number of substeps taken. -/
def runSubsteps : ℕ → ℚ → ℚ × ℕ
  | 0, acc => (acc, 0)
  | budget + 1, acc =>
      if PHYSICS_TIMESTEP ≤ acc then
        let r := runSubsteps budget (acc - PHYSICS_TIMESTEP)
        (r.1, r.2 + 1)
      else (acc, 0)

/-- One frame of `Engine.loop` given the accumulator carried over and the raw
frame delta in seconds: clamp the delta to 0.1 s, add it to the accumulator,
run the substep loop, and compute `alpha = accumulator / PHYSICS_TIMESTEP`. -/
def loopFrame (acc rawDt : ℚ) : FrameResult :=
  let frameDt := if rawDt > 1 / 10 then 1 / 10 else rawDt
  let acc1 := acc + frameDt
  let r := runSubsteps MAX_SUBSTEPS acc1
  ⟨r.1, r.1 / PHYSICS_TIMESTEP, r.2⟩

/-! ## Road chunk manager (src/systems/road/RoadManager.ts) -/

/-- `CHUNK_COUNT = 20`. -/
def CHUNK_COUNT : ℤ := 20

/-- `VISIBLE_AHEAD = 4`. -/
def VISIBLE_AHEAD : ℤ := 4

/-- `VISIBLE_BEHIND = 2`. -/
def VISIBLE_BEHIND : ℤ := 2

/-- `RoadManager.findClosestT`, abstracted over the squared-distance function
`d t = position.distanceToSquared(spline.getPointAt t)`: coarse scan over
`t = i / 100` for `i = 0..100`, keeping the first strictly smaller distance.
`none` models the initial `bestDist = Infinity`. -/
def findClosestT (d : ℚ → ℚ) : ℚ :=
  ((List.range 101).foldl
    (fun best i =>
      let t : ℚ := (i : ℚ) / 100
      let dist := d t
      match best.2 with
      | none => (t, some dist)
      | some bd => if dist < bd then (t, some dist) else best)
    ((0 : ℚ), (none : Option ℚ))).1

/-- The visible-window set of `RoadManager.updateChunks`: indices
`currentChunkIndex - VISIBLE_BEHIND .. currentChunkIndex + VISIBLE_AHEAD`
kept when inside `[0, CHUNK_COUNT)`. -/
def visibleSet (cur : ℤ) : Finset ℤ :=
  (Finset.Icc (cur - VISIBLE_BEHIND) (cur + VISIBLE_AHEAD)).filter
    (fun i => 0 ≤ i ∧ i < CHUNK_COUNT)

/-- `RoadManager.updateChunks` on the set of loaded chunk indices: derive the
current chunk index from the closest spline parameter, drop loaded chunks
outside the window, then create the window indices not yet loaded.  Returns
the loaded set and the new `currentChunkIndex`. -/
def updateChunks (chunks : Finset ℤ) (closestT : ℚ) : Finset ℤ × ℤ :=
  let chunkSize : ℚ := 1 / (CHUNK_COUNT : ℚ)
  let cur : ℤ := ⌊closestT / chunkSize⌋
  let vis := visibleSet cur
  let kept := chunks.filter (fun i => i ∈ vis)
  (kept ∪ vis.filter (fun i => i ∉ kept), cur)

/-! ## Roadside prop generation (src/systems/road/RoadManager.ts,
`RoadsideProps`, the `PROP_DENSITY = 0.003` variant)

The seeded generator is `rng = (rng * 16807 + 0) % 2147483647` with
`random() = rng / 2147483647` (mutating first).  The seed is
`Math.floor(tStart * 10000)`; at every call site `tStart = index / CHUNK_COUNT
∈ [0, 1]`, so the seed is a natural number and the JS `%` agrees with
`Nat.mod`; the state is therefore carried as `ℕ`.

`createGrass` ignores its seeded-random parameter (it is named `_random`)
and draws its three blades from the global `Math.random()`; that global
stream is modelled by an oracle `ℕ → ℚ` consumed at an advancing index.
Rotations that the code stores as `draw * Math.PI * 2` (prop yaw) or
`draw * Math.PI` (blade yaw) are recorded as the raw `draw`. -/

/-- `PROP_DENSITY = 0.003` (props per metre of road). -/
def PROP_DENSITY : ℚ := 3 / 1000

/-- `MIN_ROAD_OFFSET = 8`. -/
def MIN_ROAD_OFFSET : ℚ := 8

/-- `MAX_ROAD_OFFSET = 45`. -/
def MAX_ROAD_OFFSET : ℚ := 45

/-- One mutation of the seeded generator: `rng = (rng * 16807 + 0) % 2147483647`. -/
def rngStep (r : ℕ) : ℕ := (r * 16807 + 0) % 2147483647

/-- One `random()` call: mutate the state, return it and `rng / 2147483647`. -/
def rngDraw (r : ℕ) : ℕ × ℚ :=
  let r1 := rngStep r
  (r1, (r1 : ℚ) / 2147483647)

/-- One grass blade of `createGrass`: plane height `0.4 + Math.random() * 0.3`,
position x/z `(Math.random() - 0.5) * 0.3`, yaw `Math.random() * Math.PI`
recorded as the raw draw. -/
structure Blade where
  h : ℚ
  px : ℚ
  pz : ℚ
  rotU : ℚ
  deriving DecidableEq, Repr

/-- Blade `k`-th quadruple of `Math.random()` values from the oracle. -/
def mkBlade (o : ℕ → ℚ) (k : ℕ) : Blade :=
  ⟨4 / 10 + o k * (3 / 10), (o (k + 1) - 1 / 2) * (3 / 10),
   (o (k + 2) - 1 / 2) * (3 / 10), o (k + 3)⟩

/-- The three blades of one grass tuft, drawn from the global stream. -/
def mkGrass (o : ℕ → ℚ) (oi : ℕ) : List Blade :=
  [mkBlade o oi, mkBlade o (oi + 4), mkBlade o (oi + 8)]

/-- The random-derived appearance of one prop, per `propType` branch:
`createCactus` (height, optional arm height/length), `createRock` (scale, the
three colour channel draws, y/z scale), `createBush` (scale, two colour
channel draws), `createGrass` (blades from the global stream). -/
inductive Appearance where
  | cactus (height : ℚ) (arm : Option (ℚ × ℚ))
  | rock (scale r g b sy sz : ℚ)
  | bush (scale r g : ℚ)
  | grass (blades : List Blade)
  deriving DecidableEq, Repr

/-- One placed prop: curve parameter `t`, side (`1` or `-1`), distance from
the road centre, yaw `random() * Math.PI * 2` recorded as the raw draw, and
appearance. -/
structure PropPlacement where
  t : ℚ
  side : ℚ
  offset : ℚ
  rotU : ℚ
  app : Appearance
  deriving DecidableEq, Repr

/-- One iteration of the prop loop in `RoadsideProps.generateProps`: the four
placement draws, the appearance draws of the chosen branch, and the final yaw
draw, threading the seeded state and the global-stream index.  Returns
(new seeded state, new global index, placed prop). -/
def genProp (rng : ℕ) (o : ℕ → ℚ) (oi : ℕ) (tStart tEnd : ℚ) :
    ℕ × ℕ × PropPlacement :=
  let s1 := rngDraw rng
  let t := tStart + (tEnd - tStart) * s1.2
  let s2 := rngDraw s1.1
  let side : ℚ := if s2.2 > 1 / 2 then 1 else -1
  let s3 := rngDraw s2.1
  let offset := MIN_ROAD_OFFSET + s3.2 * (MAX_ROAD_OFFSET - MIN_ROAD_OFFSET)
  let s4 := rngDraw s3.1
  if s4.2 < 3 / 10 then
    let s5 := rngDraw s4.1
    let height := 3 / 2 + s5.2 * (5 / 2)
    let s6 := rngDraw s5.1
    if s6.2 > 3 / 10 then
      let s7 := rngDraw s6.1
      let armHeight := height * (3 / 10 + s7.2 * (4 / 10))
      let s8 := rngDraw s7.1
      let armLength := 4 / 10 + s8.2 * (6 / 10)
      let s9 := rngDraw s8.1
      (s9.1, oi, ⟨t, side, offset, s9.2, .cactus height (some (armHeight, armLength))⟩)
    else
      let s7 := rngDraw s6.1
      (s7.1, oi, ⟨t, side, offset, s7.2, .cactus height none⟩)
  else if s4.2 < 6 / 10 then
    let s5 := rngDraw s4.1
    let scale := 3 / 10 + s5.2 * (12 / 10)
    let s6 := rngDraw s5.1
    let s7 := rngDraw s6.1
    let s8 := rngDraw s7.1
    let s9 := rngDraw s8.1
    let s10 := rngDraw s9.1
    let s11 := rngDraw s10.1
    (s11.1, oi, ⟨t, side, offset, s11.2,
      .rock scale (45 / 100 + s6.2 * (1 / 10)) (38 / 100 + s7.2 * (1 / 10))
        (3 / 10 + s8.2 * (1 / 10)) (1 / 2 + s9.2 * (1 / 2)) (1 + s10.2 * (3 / 10))⟩)
  else if s4.2 < 8 / 10 then
    let s5 := rngDraw s4.1
    let scale := 1 / 2 + s5.2 * 1
    let s6 := rngDraw s5.1
    let s7 := rngDraw s6.1
    let s8 := rngDraw s7.1
    (s8.1, oi, ⟨t, side, offset, s8.2,
      .bush scale (2 / 10 + s6.2 * (15 / 100)) (3 / 10 + s7.2 * (2 / 10))⟩)
  else
    let blades := mkGrass o oi
    let s5 := rngDraw s4.1
    (s5.1, oi + 12, ⟨t, side, offset, s5.2, .grass blades⟩)

/-- The prop loop of `generateProps`, `count` iterations. -/
def genProps : ℕ → ℕ → ℕ → (ℕ → ℚ) → ℚ → ℚ → List PropPlacement
  | 0, _, _, _, _, _ => []
  | count + 1, rng, oi, o, tStart, tEnd =>
      let r := genProp rng o oi tStart tEnd
      r.2.2 :: genProps count r.1 r.2.1 o tStart tEnd

/-- A mile marker: curve parameter and the `Math.round(t * totalLength)` label. -/
structure Marker where
  t : ℚ
  label : ℤ
  deriving DecidableEq, Repr

/-- `Math.round` (half up). -/
def jsRound (x : ℚ) : ℤ := ⌊x + 1 / 2⌋

/-- The mile-marker loop of `generateProps`: `t` from `tStart` in steps of
`markerInterval = 0.02` while `t < tEnd`, skipping `t` outside `[0, 1]`.  The
`k`-th visited value is exactly `tStart + k * 0.02` (rational stepping), and
the loop runs while `k < (tEnd - tStart) * 50`, i.e. `⌈(tEnd - tStart) * 50⌉`
times for a positive range. -/
def markers (totalLength tStart tEnd : ℚ) : List Marker :=
  (List.range (⌈(tEnd - tStart) * 50⌉.toNat)).filterMap (fun k =>
    let t := tStart + (k : ℚ) * (2 / 100)
    if t < 0 ∨ t > 1 then none else some ⟨t, jsRound (t * totalLength)⟩)

/-- `RoadsideProps.generateProps` over a spline of the given total length:
`propCount = ⌊chunkLength * PROP_DENSITY⌋` props from the generator seeded
with `⌊tStart * 10000⌋`, plus the mile markers.  `o` is the global
`Math.random()` stream. -/
def generateProps (totalLength tStart tEnd : ℚ) (o : ℕ → ℚ) :
    List PropPlacement × List Marker :=
  let chunkLength := totalLength * (tEnd - tStart)
  let propCount := (⌊chunkLength * PROP_DENSITY⌋).toNat
  let seed := (⌊tStart * 10000⌋).toNat
  (genProps propCount seed 0 o tStart tEnd, markers totalLength tStart tEnd)

/-- A prop with grass-blade internals forgotten: the placement data that the
seeded generator alone determines. -/
def stripBlades : Appearance → Appearance
  | .grass _ => .grass []
  | a => a

/-- The seeded-deterministic core of a placed prop. -/
def placementCore (p : PropPlacement) : PropPlacement :=
  { p with app := stripBlades p.app }

/-! ## EngineSimulation (clutch-engagement variant of the vehicle engine file) -/

/-- The `VehicleConfig['engine']` fields the simulation reads. -/
structure EngineConfig where
  torqueCurve : List (ℚ × ℚ)
  idleRpm : ℚ
  maxRpm : ℚ
  redlineRpm : ℚ
  engineBrakingFactor : ℚ
  deriving DecidableEq, Repr

/-- The mutable fields of `EngineSimulation`. -/
structure EngineState where
  rpm : ℚ
  running : Bool
  deriving DecidableEq, Repr

namespace EngineSimulation

/-- The constructor: stores the config and sets `rpm = config.idleRpm`
(`running` is field-initialised to `true`).  It performs no validation. -/
def init (c : EngineConfig) : EngineState := ⟨c.idleRpm, true⟩

/-- The scan loop of `lookupTorque`: first pair of consecutive samples
bracketing `rpm`, linearly interpolated; `0` if the loop falls through. -/
def scanPairs : List (ℚ × ℚ) → ℚ → ℚ
  | p0 :: p1 :: rest, rpm =>
      if p0.1 ≤ rpm ∧ rpm ≤ p1.1 then
        lerp p0.2 p1.2 ((rpm - p0.1) / (p1.1 - p0.1))
      else scanPairs (p1 :: rest) rpm
  | _, _ => 0

/-- `EngineSimulation.lookupTorque`: clamp to the end samples outside the
domain, otherwise scan for the bracketing pair.  On an empty curve the JS
indexes `curve[0][0]` of `undefined` and faults; the claims never evaluate
that case, and the `[]` branch here is an arbitrary total completion. -/
def lookupTorque (curve : List (ℚ × ℚ)) (rpm : ℚ) : ℚ :=
  match curve with
  | [] => 0
  | f :: rest =>
      if rpm ≤ f.1 then f.2
      else
        let lst := (f :: rest).getLast (List.cons_ne_nil f rest)
        if lst.1 ≤ rpm then lst.2
        else scanPairs (f :: rest) rpm

/-- `EngineSimulation.update`: returns the new state and the output torque.
Not running: RPM decays by `lerp(rpm, 0, dt * 5)`, torque 0.  Running: target
RPM from clutch engagement (drivetrain RPM when in gear, idle plus a throttle
fraction in neutral), exponential approach, clamp to `[0, maxRpm]`, then rev
limiter / engine braking / curve torque times throttle. -/
def update (c : EngineConfig) (s : EngineState)
    (throttle wheelRpm gearRatio finalDrive dt : ℚ) : EngineState × ℚ :=
  if s.running = false then (⟨lerp s.rpm 0 (dt * 5), s.running⟩, 0)
  else
    let drivetrainRpm := |wheelRpm| * |gearRatio| * finalDrive
    let clutchEngagement : ℚ := if gearRatio ≠ 0 then 1 else 0
    let targetRpm :=
      if clutchEngagement > 0 then max c.idleRpm drivetrainRpm
      else c.idleRpm + throttle * (c.maxRpm - c.idleRpm) * (3 / 10)
    let rpmSpeed : ℚ := if throttle > 0 then 8 else 12
    let rpm1 := clamp (lerp s.rpm targetRpm (dt * rpmSpeed)) 0 c.maxRpm
    let torque :=
      if rpm1 ≥ c.redlineRpm then lookupTorque c.torqueCurve rpm1 * (1 / 10)
      else if throttle < 1 / 100 ∧ clutchEngagement > 0 then
        -c.engineBrakingFactor * lookupTorque c.torqueCurve rpm1 * (3 / 10)
      else lookupTorque c.torqueCurve rpm1 * throttle
    (⟨rpm1, s.running⟩, torque)

/-- `EngineSimulation.setRunning`: sets the flag; on `true` also resets the
RPM to exactly `idleRpm`. -/
def setRunning (c : EngineConfig) (s : EngineState) (running : Bool) : EngineState :=
  ⟨if running then c.idleRpm else s.rpm, running⟩

end EngineSimulation

/-- An operation on an `EngineSimulation` (the mutating public interface). -/
inductive EngineOp where
  | update (throttle wheelRpm gearRatio finalDrive dt : ℚ)
  | setRunning (running : Bool)
  deriving DecidableEq, Repr

/-- Apply one operation (the torque returned by `update` is dropped). -/
def engineStep (c : EngineConfig) (s : EngineState) : EngineOp → EngineState
  | .update throttle wheelRpm gearRatio finalDrive dt =>
      (EngineSimulation.update c s throttle wheelRpm gearRatio finalDrive dt).1
  | .setRunning r => EngineSimulation.setRunning c s r

/-- The state after a sequence of operations on a freshly constructed
`EngineSimulation`. -/
def engineRun (c : EngineConfig) (ops : List EngineOp) : EngineState :=
  ops.foldl (engineStep c) (EngineSimulation.init c)

/-! ## Transmission (src/systems/vehicle/Transmission.ts, both variants) -/

/-- The `VehicleConfig['transmission']` fields. -/
structure TransConfig where
  gearRatios : List ℚ
  reverseRatio : ℚ
  finalDriveRatio : ℚ
  efficiency : ℚ
  shiftUpRpm : ℚ
  shiftDownRpm : ℚ
  shiftDelay : ℚ
  deriving DecidableEq, Repr

/-- The mutable fields of either `Transmission` variant: current gear
(`-1` reverse, `0` neutral, `≥ 1` forward), shift timer, shifting flag. -/
structure TransState where
  currentGear : ℤ
  shiftTimer : ℚ
  shifting : Bool
  deriving DecidableEq, Repr

/-- `gearRatios[currentGear - 1] ?? 0`: JS indexing with `?? 0` for any
out-of-range (including negative) index. -/
def gearAt (l : List ℚ) (i : ℤ) : ℚ :=
  if 0 ≤ i then l.getD i.toNat 0 else 0

/-- `Transmission.getCurrentGearRatio` (identical in both variants): `0`
while shifting or in neutral, `reverseRatio` in reverse, else the indexed
forward ratio. -/
def getCurrentGearRatio (c : TransConfig) (s : TransState) : ℚ :=
  if s.shifting then 0
  else if s.currentGear = 0 then 0
  else if s.currentGear = -1 then c.reverseRatio
  else gearAt c.gearRatios (s.currentGear - 1)

namespace AutoTransmission

/-- The automatic variant's constructor: `currentGear = 1`. -/
def init (_c : TransConfig) : TransState := ⟨1, 0, false⟩

/-- `shiftTo`: set the gear and start the shift timer. -/
def shiftTo (c : TransConfig) (gear : ℤ) : TransState := ⟨gear, c.shiftDelay, true⟩

/-- The automatic variant's `update(rpm, throttle, dt)`: tick the shift timer
if shifting (and return), else auto-shift on the RPM thresholds while in a
forward gear with throttle above 0.1. -/
def update (c : TransConfig) (s : TransState) (rpm throttle dt : ℚ) : TransState :=
  if s.shifting then
    let timer := s.shiftTimer - dt
    ⟨s.currentGear, timer, ¬(timer ≤ 0)⟩
  else if 1 ≤ s.currentGear ∧ throttle > 1 / 10 then
    if rpm ≥ c.shiftUpRpm ∧ s.currentGear < (c.gearRatios.length : ℤ) then
      shiftTo c (s.currentGear + 1)
    else if rpm ≤ c.shiftDownRpm ∧ s.currentGear > 1 then
      shiftTo c (s.currentGear - 1)
    else s
  else s

/-- `setReverse`: gear `-1` unless shifting. -/
def setReverse (s : TransState) : TransState :=
  if ¬s.shifting then ⟨-1, s.shiftTimer, s.shifting⟩ else s

/-- `setForward`: gear `1` when not shifting and currently in neutral or
reverse. -/
def setForward (s : TransState) : TransState :=
  if ¬s.shifting ∧ s.currentGear ≤ 0 then ⟨1, s.shiftTimer, s.shifting⟩ else s

/-- `setNeutral`: gear `0` unconditionally. -/
def setNeutral (s : TransState) : TransState := ⟨0, s.shiftTimer, s.shifting⟩

end AutoTransmission

/-- An operation on the automatic `Transmission` variant. -/
inductive AutoOp where
  | update (rpm throttle dt : ℚ)
  | setReverse
  | setForward
  | setNeutral
  deriving DecidableEq, Repr

/-- Apply one automatic-variant operation. -/
def autoStep (c : TransConfig) (s : TransState) : AutoOp → TransState
  | .update rpm throttle dt => AutoTransmission.update c s rpm throttle dt
  | .setReverse => AutoTransmission.setReverse s
  | .setForward => AutoTransmission.setForward s
  | .setNeutral => AutoTransmission.setNeutral s

/-- The automatic variant's state after a sequence of operations. -/
def autoRun (c : TransConfig) (ops : List AutoOp) : TransState :=
  ops.foldl (autoStep c) (AutoTransmission.init c)

namespace ManualTransmission

/-- The manual variant's constructor: neutral (`currentGear = 0`); the stored
`maxGear` is `config.gearRatios.length`. -/
def init (_c : TransConfig) : TransState := ⟨0, 0, false⟩

/-- The manual variant's `update(dt)`: tick the shift timer while shifting. -/
def update (s : TransState) (dt : ℚ) : TransState :=
  if s.shifting then
    let timer := s.shiftTimer - dt
    ⟨s.currentGear, timer, ¬(timer ≤ 0)⟩
  else s

/-- `shiftUp`: ignored while shifting; increment below `maxGear` and start the
shift timer. -/
def shiftUp (c : TransConfig) (s : TransState) : TransState :=
  if s.shifting then s
  else if s.currentGear < (c.gearRatios.length : ℤ) then
    ⟨s.currentGear + 1, c.shiftDelay, true⟩
  else s

/-- `shiftDown`: ignored while shifting; decrement above `-1` and start the
shift timer. -/
def shiftDown (c : TransConfig) (s : TransState) : TransState :=
  if s.shifting then s
  else if s.currentGear > -1 then ⟨s.currentGear - 1, c.shiftDelay, true⟩
  else s

/-- `resetToNeutral`: gear 0, timer cleared, not shifting. -/
def resetToNeutral (_s : TransState) : TransState := ⟨0, 0, false⟩

end ManualTransmission

/-- An operation on the manual `Transmission` variant. -/
inductive ManualOp where
  | update (dt : ℚ)
  | shiftUp
  | shiftDown
  | resetToNeutral
  deriving DecidableEq, Repr

/-- Apply one manual-variant operation. -/
def manualStep (c : TransConfig) (s : TransState) : ManualOp → TransState
  | .update dt => ManualTransmission.update s dt
  | .shiftUp => ManualTransmission.shiftUp c s
  | .shiftDown => ManualTransmission.shiftDown c s
  | .resetToNeutral => ManualTransmission.resetToNeutral s

/-- The manual variant's state after a sequence of operations. -/
def manualRun (c : TransConfig) (ops : List ManualOp) : TransState :=
  ops.foldl (manualStep c) (ManualTransmission.init c)

/-! ## FuelSystem (vehicle fuel file)

`update` converts torque × angular velocity to kW with
`angularVelocity = rpm * 2 * Math.PI / 60`; because of `Math.PI` this
subsystem is embedded over `ℝ`. -/

/-- The `VehicleConfig['fuel']` fields. -/
structure FuelConfig where
  tankCapacity : ℝ
  bsfc : ℝ
  fuelDensity : ℝ

/-- The mutable field of `FuelSystem`. -/
structure FuelState where
  currentFuel : ℝ

namespace FuelSystem

/-- The constructor: `currentFuel = config.tankCapacity`, no validation. -/
def init (c : FuelConfig) : FuelState := ⟨c.tankCapacity⟩

/-- `FuelSystem.update(rpm, torque, dt)`: no-op when the tank reads empty;
otherwise BSFC-based consumption plus the idle baseline `0.0002 L/s`,
integrated over `dt` and clamped to `[0, tankCapacity]`. -/
noncomputable def update (c : FuelConfig) (s : FuelState) (rpm torque dt : ℝ) :
    FuelState :=
  if s.currentFuel ≤ 0 then s
  else
    let angularVelocity := rpm * 2 * Real.pi / 60
    let powerKw := |torque * angularVelocity| / 1000
    let fuelGramsPerSecond := c.bsfc * powerKw / 3600
    let fuelLitersPerSecond := fuelGramsPerSecond / (c.fuelDensity * 1000)
    let totalConsumption := fuelLitersPerSecond + 2 / 10000
    ⟨clampR (s.currentFuel - totalConsumption * dt) 0 c.tankCapacity⟩

/-- `FuelSystem.isEmpty`: `currentFuel <= 0`. -/
def isEmpty (s : FuelState) : Prop := s.currentFuel ≤ 0

/-- `FuelSystem.refuel(amount?)`: add `amount ?? tankCapacity`, clamped to
`[0, tankCapacity]`. -/
def refuel (c : FuelConfig) (s : FuelState) (amount : Option ℝ) : FuelState :=
  ⟨clampR (s.currentFuel + amount.getD c.tankCapacity) 0 c.tankCapacity⟩

end FuelSystem

/-- A `(rpm, torque, dt)` triple fed to `FuelSystem.update`. -/
structure FuelCall where
  rpm : ℝ
  torque : ℝ
  dt : ℝ

/-- The fuel state after a sequence of `update` calls. -/
noncomputable def fuelRun (c : FuelConfig) (s : FuelState) (calls : List FuelCall) :
    FuelState :=
  calls.foldl (fun s x => FuelSystem.update c s x.rpm x.torque x.dt) s

/-! ## VehicleController.fixedUpdate (drivetrain portion)

The orchestrator pairs the manual transmission with the engine and fuel
simulations.  Pose snapshots and the calls into the external Rapier vehicle
controller (steering/brake/engine-force application and `updateVehicle`) are
outward effects; the wheel RPM it queries from physics and the speed used by
the hill-hold check enter here as parameters. -/

/-- The per-frame input snapshot fields `fixedUpdate` reads. -/
structure InputState where
  forward : Bool
  backward : Bool
  left : Bool
  right : Bool
  brake : Bool
  shiftUp : Bool
  shiftDown : Bool

/-- The configuration the drivetrain portion of the controller reads. -/
structure VehicleCfg where
  engine : EngineConfig
  transmission : TransConfig
  fuel : FuelConfig
  steeringMaxAngle : ℚ
  steeringSpeed : ℚ
  steeringReturnSpeed : ℚ
  wheelRadius : ℚ
  brakesMaxForce : ℚ

/-- The controller state `fixedUpdate` mutates (drivetrain portion). -/
structure VehicleState where
  trans : TransState
  engine : EngineState
  fuel : FuelState
  currentSteering : ℚ

/-- The forces `fixedUpdate` sends to the external vehicle controller: the
drive force (split evenly across the two rear wheels) and the brake force
(applied to all wheels). -/
structure WheelCommand where
  wheelForce : ℚ
  brakeForce : ℚ

open Classical in
/-- `VehicleController.fixedUpdate`, drivetrain portion, in source order:
manual gear shifts from the input, throttle (1 forward, 0.6 backward),
steering integration, the transmission ratio read before the transmission's
own update, engine update, fuel update from the post-update engine RPM, the
fuel-empty stall check, wheel force (zero when not running or in neutral) and
brake force with hill-hold. -/
noncomputable def fixedUpdate (c : VehicleCfg) (s : VehicleState)
    (input : InputState) (wheelRpm speed dt : ℚ) : VehicleState × WheelCommand :=
  let trans1 := if input.shiftUp then ManualTransmission.shiftUp c.transmission s.trans
                else s.trans
  let trans2 := if input.shiftDown then ManualTransmission.shiftDown c.transmission trans1
                else trans1
  let throttle : ℚ := if input.forward then 1 else if input.backward then 6 / 10 else 0
  let brakeInput : ℚ := if input.brake then 1 else 0
  let steerTarget : ℚ := (if input.left then 1 else 0) - (if input.right then 1 else 0)
  let steerSpeed := if steerTarget ≠ 0 then c.steeringSpeed else c.steeringReturnSpeed
  let steering := lerp s.currentSteering (steerTarget * c.steeringMaxAngle)
    (dt * steerSpeed)
  let gearRatio := getCurrentGearRatio c.transmission trans2
  let finalDrive := c.transmission.finalDriveRatio
  let trans3 := ManualTransmission.update trans2 dt
  let er := EngineSimulation.update c.engine s.engine throttle wheelRpm gearRatio
    finalDrive dt
  let fuel1 := FuelSystem.update c.fuel s.fuel ((er.1.rpm : ℚ) : ℝ) ((er.2 : ℚ) : ℝ)
    ((dt : ℚ) : ℝ)
  let engine2 := if FuelSystem.isEmpty fuel1 ∧ er.1.running = true then
      EngineSimulation.setRunning c.engine er.1 false
    else er.1
  let wheelForce := if engine2.running = true ∧ gearRatio ≠ 0 then
      er.2 * gearRatio * finalDrive * c.transmission.efficiency / c.wheelRadius
    else 0
  let holdBrake : ℚ := if gearRatio ≠ 0 ∧ throttle < 1 / 100 ∧ speed < 3 then 15 else 0
  (⟨trans3, engine2, fuel1, steering⟩, ⟨wheelForce, brakeInput * c.brakesMaxForce + holdBrake⟩)

/-! ## Run predicates and concrete configurations used by the theorems -/

/-- The `dt` restriction under which the not-running decay
`lerp(rpm, 0, dt * 5)` cannot undershoot 0: `dt * 5 ≤ 1`. -/
def engineDtOK : EngineOp → Prop
  | .update _ _ _ _ dt => 0 ≤ dt ∧ dt ≤ 1 / 5
  | .setRunning _ => True

/-- The gear-range invariant: `-1 ≤ gear ≤ number of forward ratios`. -/
def gearInv (c : TransConfig) (s : TransState) : Prop :=
  -1 ≤ s.currentGear ∧ s.currentGear ≤ (c.gearRatios.length : ℤ)

/-- A small engine configuration for concrete runs. -/
def engineCfgX : EngineConfig := ⟨[(0, 100), (6000, 100)], 800, 7000, 6500, 1⟩

/-- A small transmission configuration for concrete runs. -/
def transCfgX : TransConfig := ⟨[35 / 10, 2, 14 / 10], -3, 4, 9 / 10, 5500, 2000, 1 / 2⟩

/-- A fuel configuration for concrete runs (60 L tank, BSFC 250 g/kWh,
density 0.75 kg/L). -/
noncomputable def fuelCfgX : FuelConfig := ⟨60, 250, 3 / 4⟩

/-- The malformed configurations of claim C8: empty torque curve, empty gear
list, non-positive tank capacity. -/
def badEngineCfg : EngineConfig := ⟨[], 800, 7000, 6500, 1⟩

/-- Transmission configuration with an empty gear-ratio list. -/
def badTransCfg : TransConfig := ⟨[], -3, 4, 9 / 10, 5500, 2000, 1 / 2⟩

/-- Fuel configuration with a negative tank capacity. -/
noncomputable def badFuelCfg : FuelConfig := ⟨-5, 250, 3 / 4⟩

/-! # Theorems -/

/-! ## C1 — fixed-step scheduler -/

lemma runSubsteps_nonneg (budget : ℕ) :
    ∀ acc : ℚ, 0 ≤ acc → 0 ≤ (runSubsteps budget acc).1 := by
  induction budget with
  | zero => intro acc h; exact h
  | succ n ih =>
      intro acc h
      simp only [runSubsteps]
      split
      · exact ih _ (by have : (0:ℚ) < PHYSICS_TIMESTEP := by norm_num [PHYSICS_TIMESTEP]
                       linarith)
      · exact h

lemma runSubsteps_exit (budget : ℕ) :
    ∀ acc : ℚ, (runSubsteps budget acc).2 < budget →
      (runSubsteps budget acc).1 < PHYSICS_TIMESTEP := by
  induction budget with
  | zero => intro acc h; exact absurd h (by simp)
  | succ n ih =>
      intro acc h
      simp only [runSubsteps] at h ⊢
      split
      · next hc =>
          simp only [hc, if_pos] at h
          exact ih _ (by omega)
      · next hc => exact lt_of_not_le hc

/-- C1, corrected.  The blend factor is `accumulator / PHYSICS_TIMESTEP`, it
is nonnegative for nonnegative inputs, and it is below 1 whenever the substep
loop stopped before the `MAX_SUBSTEPS` cap; for the single 250 ms frame
(clamped to 100 ms by `Engine.loop`) exactly `MAX_SUBSTEPS = 5` fixed-update
rounds run and the leftover accumulator is exactly one timestep, so the blend
factor is exactly 1 — in `[0, 1]` but not in `[0, 1)` as claimed. -/
theorem C1_scheduler_blend :
    (∀ acc rawDt : ℚ, 0 ≤ acc → 0 ≤ rawDt →
      (loopFrame acc rawDt).alpha = (loopFrame acc rawDt).accumulator / PHYSICS_TIMESTEP ∧
      0 ≤ (loopFrame acc rawDt).alpha ∧
      ((loopFrame acc rawDt).steps < MAX_SUBSTEPS → (loopFrame acc rawDt).alpha < 1)) ∧
    (loopFrame 0 (1 / 4)).steps = 5 ∧ (loopFrame 0 (1 / 4)).alpha = 1 := by
  constructor
  · intro acc rawDt hacc hraw
    have hTS : (0 : ℚ) < PHYSICS_TIMESTEP := by norm_num [PHYSICS_TIMESTEP]
    have hfd : (0 : ℚ) ≤ acc + (if rawDt > 1 / 10 then 1 / 10 else rawDt) := by
      have : (0 : ℚ) ≤ (if rawDt > 1 / 10 then 1 / 10 else rawDt) := by
        split <;> [norm_num; exact hraw]
      linarith
    refine ⟨rfl, ?_, ?_⟩
    · exact div_nonneg (runSubsteps_nonneg _ _ hfd) hTS.le
    · intro hsteps
      have := runSubsteps_exit MAX_SUBSTEPS
        (acc + (if rawDt > 1 / 10 then 1 / 10 else rawDt)) hsteps
      exact (div_lt_one hTS).mpr this
  · norm_num [loopFrame, runSubsteps, MAX_SUBSTEPS, PHYSICS_TIMESTEP]

/-- Witness for C1 at a frame delta of 30 ms from an empty accumulator: one
substep runs (below the cap) and the blend factor lies in `[0, 1)`. -/
theorem C1_scheduler_blend_witness :
    0 ≤ (loopFrame 0 (3 / 100)).alpha ∧ (loopFrame 0 (3 / 100)).alpha < 1 := by
  have h := C1_scheduler_blend.1 0 (3 / 100) (by norm_num) (by norm_num)
  exact ⟨h.2.1, h.2.2 (by norm_num [loopFrame, runSubsteps, MAX_SUBSTEPS, PHYSICS_TIMESTEP])⟩

/-- Counterexample to C1 as stated: the 250 ms frame runs exactly 5
fixed-update rounds but the blend factor is exactly 1, not in `[0, 1)`. -/
theorem C1_scheduler_blend_counterexample :
    (loopFrame 0 (1 / 4)).steps = 5 ∧ (loopFrame 0 (1 / 4)).alpha = 1 ∧
    ¬((loopFrame 0 (1 / 4)).alpha < 1) := by
  norm_num [loopFrame, runSubsteps, MAX_SUBSTEPS, PHYSICS_TIMESTEP]

/-! ## C3 — road chunk window -/

/-- C3, confirmed.  After `updateChunks` with the parameter produced by
`findClosestT` on any squared-distance function, an index is loaded exactly
when it lies in the window `[cur - VISIBLE_BEHIND, cur + VISIBLE_AHEAD]`
intersected with `[0, CHUNK_COUNT)`, where `cur` — the returned
`currentChunkIndex` — is `⌊closestT / (1 / CHUNK_COUNT)⌋`; this holds for
every prior loaded set. -/
theorem C3_chunk_window (chunks : Finset ℤ) (d : ℚ → ℚ) (i : ℤ) :
    (updateChunks chunks (findClosestT d)).2 =
      ⌊findClosestT d / (1 / (CHUNK_COUNT : ℚ))⌋ ∧
    (i ∈ (updateChunks chunks (findClosestT d)).1 ↔
      ((updateChunks chunks (findClosestT d)).2 - VISIBLE_BEHIND ≤ i ∧
       i ≤ (updateChunks chunks (findClosestT d)).2 + VISIBLE_AHEAD ∧
       0 ≤ i ∧ i < CHUNK_COUNT)) := by
  refine ⟨rfl, ?_⟩
  simp only [updateChunks, visibleSet, Finset.mem_union, Finset.mem_filter,
    Finset.mem_Icc]
  tauto

/-! ## C4 — torque-curve lookup -/

/-- In a strictly-increasing sample list, the head RPM is below every later
sample's RPM. -/
lemma pairwise_head_lt {x : ℚ × ℚ} {l : List (ℚ × ℚ)}
    (h : List.Pairwise (fun p q => p.1 < q.1) (x :: l)) (j : ℕ) (hj : j < l.length) :
    x.1 < l[j].1 :=
  (List.pairwise_cons.mp h).1 l[j] (l.getElem_mem hj)

/-- Head RPM is at most every sample's RPM (itself included). -/
lemma pairwise_head_le {x : ℚ × ℚ} {l : List (ℚ × ℚ)}
    (h : List.Pairwise (fun p q => p.1 < q.1) (x :: l)) (k : ℕ)
    (hk : k < (x :: l).length) : x.1 ≤ (x :: l)[k].1 := by
  cases k with
  | zero => simp
  | succ j =>
      have := pairwise_head_lt h j (by simpa using hk)
      simpa using this.le

/-- The scan loop of `lookupTorque` returns the interpolation over any
bracketing pair of a strictly-increasing sample list (when `rpm` is a shared
sample point, every bracketing pair yields the same value). -/
lemma scanPairs_bracket :
    ∀ (l : List (ℚ × ℚ)), List.Pairwise (fun p q => p.1 < q.1) l →
    ∀ (rpm : ℚ) (i : ℕ) (hi : i + 1 < l.length),
      l[i].1 ≤ rpm → rpm ≤ l[i + 1].1 →
      EngineSimulation.scanPairs l rpm =
        lerp l[i].2 l[i + 1].2 ((rpm - l[i].1) / (l[i + 1].1 - l[i].1)) := by
  intro l
  induction l with
  | nil => intro _ rpm i hi; simp at hi
  | cons p0 tail ih =>
      intro hp rpm i hi h1 h2
      match tail, hi with
      | p1 :: rest, hi =>
        have hp01 : p0.1 < p1.1 := pairwise_head_lt hp 0 (by simp)
        have hptail : List.Pairwise (fun p q => p.1 < q.1) (p1 :: rest) :=
          (List.pairwise_cons.mp hp).2
        cases i with
        | zero =>
            simp only [List.getElem_cons_zero, List.getElem_cons_succ] at h1 h2 ⊢
            simp only [EngineSimulation.scanPairs, if_pos (And.intro h1 h2)]
        | succ j =>
            simp only [List.getElem_cons_succ] at h1 h2 ⊢
            have hj : j < (p1 :: rest).length := by
              simp at hi ⊢; omega
            by_cases hr : rpm ≤ p1.1
            · -- the head pair also brackets: rpm = p1.1 and j = 0
              have hmono : p1.1 ≤ (p1 :: rest)[j].1 := pairwise_head_le hptail j hj
              have heq : rpm = p1.1 := le_antisymm hr (le_trans hmono h1)
              cases j with
              | zero =>
                  simp only [List.getElem_cons_zero, List.getElem_cons_succ] at h1 h2 ⊢
                  have hcond : p0.1 ≤ rpm ∧ rpm ≤ p1.1 := ⟨by linarith, hr⟩
                  simp only [EngineSimulation.scanPairs, if_pos hcond]
                  have hne : p1.1 - p0.1 ≠ 0 := by linarith
                  rw [heq]
                  unfold lerp
                  field_simp
              | succ k =>
                  have : p1.1 < (p1 :: rest)[k + 1].1 := by
                    have hk : k < rest.length := by simpa using hj
                    simpa using pairwise_head_lt hptail k hk
                  exact absurd (le_antisymm hmono (heq ▸ h1)) this.ne
            · -- the head pair does not bracket: recurse
              have hcond : ¬(p0.1 ≤ rpm ∧ rpm ≤ p1.1) := fun h => hr h.2
              simp only [EngineSimulation.scanPairs, if_neg hcond]
              exact ih hptail rpm j (by simpa using hi) h1 h2

/-- C4, confirmed.  For a torque curve of at least two samples with strictly
increasing RPM: at or below the first sample the lookup returns the first
torque, at or above the last sample the last torque, and for every RPM
strictly inside the domain it returns the linear interpolation over a
bracketing pair of samples. -/
theorem C4_torque_lookup (curve : List (ℚ × ℚ))
    (hs : List.Pairwise (fun p q => p.1 < q.1) curve)
    (hlen : 2 ≤ curve.length) (rpm : ℚ) (hne : curve ≠ []) :
    (rpm ≤ curve[0].1 → EngineSimulation.lookupTorque curve rpm = curve[0].2) ∧
    ((curve.getLast hne).1 ≤ rpm →
      EngineSimulation.lookupTorque curve rpm = (curve.getLast hne).2) ∧
    (∀ (i : ℕ) (hi : i + 1 < curve.length),
      curve[0].1 < rpm → rpm < (curve.getLast hne).1 →
      curve[i].1 ≤ rpm → rpm ≤ curve[i + 1].1 →
      EngineSimulation.lookupTorque curve rpm =
        lerp curve[i].2 curve[i + 1].2
          ((rpm - curve[i].1) / (curve[i + 1].1 - curve[i].1))) := by
  match curve, hne with
  | f :: rest, _ =>
    have hlast : (f :: rest).getLast (List.cons_ne_nil f rest) =
        (f :: rest)[(f :: rest).length - 1] := List.getLast_eq_getElem _ _
    have hflast : f.1 < ((f :: rest).getLast (List.cons_ne_nil f rest)).1 := by
      rw [hlast]
      obtain ⟨m, hm⟩ : ∃ m, rest.length = m + 1 :=
        ⟨rest.length - 1, by simp at hlen; omega⟩
      have hr : m < rest.length := by omega
      have := pairwise_head_lt hs m hr
      simp only [List.length_cons, hm, Nat.add_sub_cancel]
      simpa using this
    refine ⟨?_, ?_, ?_⟩
    · intro h
      have h' : rpm ≤ f.1 := by simpa using h
      simp [EngineSimulation.lookupTorque, if_pos h']
    · intro h
      have hnf : ¬(rpm ≤ f.1) := by
        intro hc
        linarith
      simp only [EngineSimulation.lookupTorque, if_neg hnf, if_pos h]
    · intro i hi h0 hl hb1 hb2
      have hnf : ¬(rpm ≤ f.1) := by
        have h0' : f.1 < rpm := by simpa using h0
        linarith
      have hnl : ¬(((f :: rest).getLast (List.cons_ne_nil f rest)).1 ≤ rpm) := by
        linarith
      simp only [EngineSimulation.lookupTorque, if_neg hnf, if_neg hnl]
      exact scanPairs_bracket (f :: rest) hs rpm i hi hb1 hb2

/-- Witness for C4 on the curve `[(1000, 100), (3000, 200), (5000, 150)]`:
clamped below, clamped above, and interpolated at 2000 RPM. -/
theorem C4_torque_lookup_witness :
    EngineSimulation.lookupTorque [(1000, 100), (3000, 200), (5000, 150)] 500 = 100 ∧
    EngineSimulation.lookupTorque [(1000, 100), (3000, 200), (5000, 150)] 6000 = 150 ∧
    EngineSimulation.lookupTorque [(1000, 100), (3000, 200), (5000, 150)] 2000 =
      lerp 100 200 ((2000 - 1000) / (3000 - 1000)) := by
  have hs : List.Pairwise (fun p q : ℚ × ℚ => p.1 < q.1)
      [(1000, 100), (3000, 200), (5000, 150)] := by
    simp only [List.pairwise_cons, List.mem_cons, List.mem_singleton]
    norm_num
  have hlow := (C4_torque_lookup [(1000, 100), (3000, 200), (5000, 150)] hs
    (by norm_num) 500 (by simp)).1 (by norm_num)
  have hhigh := (C4_torque_lookup [(1000, 100), (3000, 200), (5000, 150)] hs
    (by norm_num) 6000 (by simp)).2.1 (by norm_num [List.getLast])
  have hmid := (C4_torque_lookup [(1000, 100), (3000, 200), (5000, 150)] hs
    (by norm_num) 2000 (by simp)).2.2 0 (by norm_num) (by norm_num)
    (by norm_num [List.getLast]) (by norm_num) (by norm_num)
  refine ⟨by simpa using hlow, by simpa [List.getLast] using hhigh, by simpa using hmid⟩

/-! ## C5 — engine RPM range -/

lemma engineStep_range (c : EngineConfig) (h0 : 0 ≤ c.idleRpm)
    (h1 : c.idleRpm ≤ c.maxRpm) (s : EngineState)
    (hs : 0 ≤ s.rpm ∧ s.rpm ≤ c.maxRpm) (op : EngineOp) (hop : engineDtOK op) :
    0 ≤ (engineStep c s op).rpm ∧ (engineStep c s op).rpm ≤ c.maxRpm := by
  obtain ⟨hsl, hsu⟩ := hs
  have hmax : (0 : ℚ) ≤ c.maxRpm := le_trans h0 h1
  cases op with
  | update throttle wheelRpm gearRatio finalDrive dt =>
      obtain ⟨hdl, hdu⟩ := hop
      simp only [engineStep, EngineSimulation.update]
      split
      · -- not running: rpm * (1 - dt * 5)
        simp only [lerp]
        constructor
        · nlinarith
        · nlinarith
      · -- running: clamped to [0, maxRpm]
        simp only [clamp]
        constructor
        · exact le_max_left 0 _
        · exact max_le hmax (min_le_left _ _)
  | setRunning r =>
      cases r with
      | false => exact ⟨hsl, hsu⟩
      | true => exact ⟨h0, h1⟩

lemma engineFold_range (c : EngineConfig) (h0 : 0 ≤ c.idleRpm)
    (h1 : c.idleRpm ≤ c.maxRpm) :
    ∀ (ops : List EngineOp), (∀ op ∈ ops, engineDtOK op) →
      ∀ s : EngineState, 0 ≤ s.rpm ∧ s.rpm ≤ c.maxRpm →
        0 ≤ (ops.foldl (engineStep c) s).rpm ∧
        (ops.foldl (engineStep c) s).rpm ≤ c.maxRpm := by
  intro ops
  induction ops with
  | nil => intro _ s hs; exact hs
  | cons op rest ih =>
      intro hops s hs
      exact ih (fun x hx => hops x (List.mem_cons_of_mem op hx))
        (engineStep c s op)
        (engineStep_range c h0 h1 s hs op (hops op (List.mem_cons_self op rest)))

/-- C5, corrected.  With `0 ≤ idleRpm ≤ maxRpm` and every update's `dt` in
`[0, 1/5]` — the bound the not-running decay `lerp(rpm, 0, dt * 5)` needs,
since that branch is not clamped — the RPM of a freshly constructed engine
stays in `[0, maxRpm]` under every operation sequence, and `setRunning(true)`
sets the RPM to exactly `idleRpm` from any state. -/
theorem C5_engine_rpm_range (c : EngineConfig) (h0 : 0 ≤ c.idleRpm)
    (h1 : c.idleRpm ≤ c.maxRpm) :
    (∀ ops : List EngineOp, (∀ op ∈ ops, engineDtOK op) →
      0 ≤ (engineRun c ops).rpm ∧ (engineRun c ops).rpm ≤ c.maxRpm) ∧
    (∀ s : EngineState, (EngineSimulation.setRunning c s true).rpm = c.idleRpm) := by
  refine ⟨fun ops hops => ?_, fun s => rfl⟩
  exact engineFold_range c h0 h1 ops hops (EngineSimulation.init c) ⟨h0, h1⟩

/-- Witness for C5: a throttle step at the physics timestep keeps the RPM in
range, and `setRunning(true)` lands exactly on `idleRpm = 800`. -/
theorem C5_engine_rpm_range_witness :
    (0 ≤ (engineRun engineCfgX [EngineOp.update 1 100 3 4 (1 / 60)]).rpm ∧
     (engineRun engineCfgX [EngineOp.update 1 100 3 4 (1 / 60)]).rpm ≤
       engineCfgX.maxRpm) ∧
    (EngineSimulation.setRunning engineCfgX ⟨4000, false⟩ true).rpm =
      engineCfgX.idleRpm := by
  have h := C5_engine_rpm_range engineCfgX (by norm_num [engineCfgX])
    (by norm_num [engineCfgX])
  refine ⟨h.1 [EngineOp.update 1 100 3 4 (1 / 60)] ?_, h.2 ⟨4000, false⟩⟩
  intro op hop
  simp only [List.mem_singleton] at hop
  subst hop
  norm_num [engineDtOK]

/-- Counterexample to C5 as stated: an update with `dt = 1` while the engine
is not running sends the RPM to `lerp(800, 0, 5) = -3200`, outside
`[0, maxRpm]` — the decay branch has no clamp. -/
theorem C5_engine_rpm_range_counterexample :
    (engineRun engineCfgX [EngineOp.setRunning false, EngineOp.update 0 0 0 0 1]).rpm
      = -3200 ∧
    ¬(0 ≤ (engineRun engineCfgX
        [EngineOp.setRunning false, EngineOp.update 0 0 0 0 1]).rpm) := by
  norm_num [engineRun, engineStep, engineCfgX, EngineSimulation.init,
    EngineSimulation.setRunning, EngineSimulation.update, lerp]

/-! ## C6 — transmission gear range and shifting ratio -/

lemma autoStep_inv (c : TransConfig) (hN : 1 ≤ c.gearRatios.length)
    (s : TransState) (hs : gearInv c s) (op : AutoOp) :
    gearInv c (autoStep c s op) := by
  obtain ⟨hl, hu⟩ := hs
  cases op with
  | update rpm throttle dt =>
      simp only [autoStep, AutoTransmission.update, AutoTransmission.shiftTo]
      split_ifs <;> constructor <;> simp_all [gearInv] <;> omega
  | setReverse =>
      simp only [autoStep, AutoTransmission.setReverse]
      split_ifs <;> constructor <;> simp_all [gearInv] <;> omega
  | setForward =>
      simp only [autoStep, AutoTransmission.setForward]
      split_ifs <;> constructor <;> simp_all [gearInv]
  | setNeutral =>
      simp only [autoStep, AutoTransmission.setNeutral]
      constructor <;> simp

lemma manualStep_inv (c : TransConfig) (s : TransState) (hs : gearInv c s)
    (op : ManualOp) : gearInv c (manualStep c s op) := by
  obtain ⟨hl, hu⟩ := hs
  cases op with
  | update dt =>
      simp only [manualStep, ManualTransmission.update]
      split_ifs <;> exact ⟨by simpa using hl, by simpa using hu⟩
  | shiftUp =>
      simp only [manualStep, ManualTransmission.shiftUp]
      split_ifs <;> constructor <;> simp_all [gearInv] <;> omega
  | shiftDown =>
      simp only [manualStep, ManualTransmission.shiftDown]
      split_ifs <;> constructor <;> simp_all [gearInv] <;> omega
  | resetToNeutral =>
      simp only [manualStep, ManualTransmission.resetToNeutral]
      constructor <;> simp

lemma autoFold_inv (c : TransConfig) (hN : 1 ≤ c.gearRatios.length) :
    ∀ (ops : List AutoOp) (s : TransState), gearInv c s →
      gearInv c (ops.foldl (autoStep c) s) := by
  intro ops
  induction ops with
  | nil => intro s hs; exact hs
  | cons op rest ih => intro s hs; exact ih _ (autoStep_inv c hN s hs op)

lemma manualFold_inv (c : TransConfig) :
    ∀ (ops : List ManualOp) (s : TransState), gearInv c s →
      gearInv c (ops.foldl (manualStep c) s) := by
  intro ops
  induction ops with
  | nil => intro s hs; exact hs
  | cons op rest ih => intro s hs; exact ih _ (manualStep_inv c s hs op)

/-- C6, confirmed (for a configuration with at least one forward ratio, the
data-model invariant of the spec — the automatic variant constructs in gear
1).  In both captured variants the gear stays in `[-1, gearRatios.length]`
under every operation sequence, and `getCurrentGearRatio` is exactly 0
whenever the shifting flag is set. -/
theorem C6_transmission_invariants (c : TransConfig)
    (hN : 1 ≤ c.gearRatios.length) :
    (∀ ops : List AutoOp, -1 ≤ (autoRun c ops).currentGear ∧
      (autoRun c ops).currentGear ≤ (c.gearRatios.length : ℤ)) ∧
    (∀ ops : List ManualOp, -1 ≤ (manualRun c ops).currentGear ∧
      (manualRun c ops).currentGear ≤ (c.gearRatios.length : ℤ)) ∧
    (∀ s : TransState, s.shifting = true → getCurrentGearRatio c s = 0) := by
  refine ⟨fun ops => ?_, fun ops => ?_, fun s hs => ?_⟩
  · exact autoFold_inv c hN ops (AutoTransmission.init c)
      ⟨by norm_num [AutoTransmission.init], by simp [AutoTransmission.init]; omega⟩
  · exact manualFold_inv c ops (ManualTransmission.init c)
      ⟨by norm_num [ManualTransmission.init], by simp [ManualTransmission.init]⟩
  · simp [getCurrentGearRatio, hs]

/-- Witness for C6: a concrete automatic run (auto-upshift then reverse), a
concrete manual run, and the shifting-ratio identity on a shifting state. -/
theorem C6_transmission_invariants_witness :
    (-1 ≤ (autoRun transCfgX
        [AutoOp.update 6000 1 (1 / 60), AutoOp.setReverse]).currentGear ∧
      (autoRun transCfgX
        [AutoOp.update 6000 1 (1 / 60), AutoOp.setReverse]).currentGear ≤ 3) ∧
    (-1 ≤ (manualRun transCfgX
        [ManualOp.shiftUp, ManualOp.update 1, ManualOp.shiftDown]).currentGear ∧
      (manualRun transCfgX
        [ManualOp.shiftUp, ManualOp.update 1, ManualOp.shiftDown]).currentGear ≤ 3) ∧
    getCurrentGearRatio transCfgX ⟨2, 1 / 4, true⟩ = 0 := by
  have h := C6_transmission_invariants transCfgX (by norm_num [transCfgX])
  exact ⟨by simpa [transCfgX] using h.1 [AutoOp.update 6000 1 (1 / 60), AutoOp.setReverse],
    by simpa [transCfgX] using
      h.2.1 [ManualOp.shiftUp, ManualOp.update 1, ManualOp.shiftDown],
    h.2.2 ⟨2, 1 / 4, true⟩ rfl⟩

/-! ## C2 — fuel monotonicity, emptiness, and the stall check -/

lemma fuel_update_bounds (c : FuelConfig) (hb : 0 ≤ c.bsfc) (hd : 0 < c.fuelDensity)
    (s : FuelState) (h0 : 0 ≤ s.currentFuel) (h1 : s.currentFuel ≤ c.tankCapacity)
    (rpm torque dt : ℝ) (hdt : 0 ≤ dt) :
    (FuelSystem.update c s rpm torque dt).currentFuel ≤ s.currentFuel ∧
    0 ≤ (FuelSystem.update c s rpm torque dt).currentFuel ∧
    (FuelSystem.update c s rpm torque dt).currentFuel ≤ c.tankCapacity := by
  simp only [FuelSystem.update]
  split
  · exact ⟨le_refl _, h0, h1⟩
  · simp only [clampR]
    have hcons : 0 ≤ (c.bsfc * (|torque * (rpm * 2 * Real.pi / 60)| / 1000) / 3600 /
        (c.fuelDensity * 1000) + 2 / 10000) * dt := by
      have habs : (0 : ℝ) ≤ |torque * (rpm * 2 * Real.pi / 60)| := abs_nonneg _
      have hden : (0 : ℝ) < c.fuelDensity * 1000 := by linarith
      have h2 : 0 ≤ c.bsfc * (|torque * (rpm * 2 * Real.pi / 60)| / 1000) / 3600 /
          (c.fuelDensity * 1000) :=
        div_nonneg (div_nonneg (mul_nonneg hb (div_nonneg habs (by norm_num)))
          (by norm_num)) hden.le
      have : (0 : ℝ) ≤ c.bsfc * (|torque * (rpm * 2 * Real.pi / 60)| / 1000) / 3600 /
          (c.fuelDensity * 1000) + 2 / 10000 := by linarith
      exact mul_nonneg this hdt
    refine ⟨?_, le_max_left 0 _, ?_⟩
    · exact max_le h0 (le_trans (min_le_right _ _) (by linarith))
    · exact max_le (le_trans h0 h1) (min_le_left _ _)

open Classical in
/-- The fuel-empty stall check of `fixedUpdate`, isolated: whatever engine
state the step computed, if the fuel state it just produced reads empty, the
resulting running flag is `false`. -/
lemma stall_check (ce : EngineConfig) (E : EngineState) (F : FuelState)
    (h : FuelSystem.isEmpty F) :
    (if FuelSystem.isEmpty F ∧ E.running = true then
        EngineSimulation.setRunning ce E false
      else E).running = false := by
  split
  · rfl
  · next hc =>
      by_contra hrun
      exact hc ⟨h, by simpa using hrun⟩

lemma fuelRun_bounds (c : FuelConfig) (hb : 0 ≤ c.bsfc) (hd : 0 < c.fuelDensity) :
    ∀ (calls : List FuelCall), (∀ x ∈ calls, 0 ≤ x.dt) →
      ∀ s : FuelState, 0 ≤ s.currentFuel → s.currentFuel ≤ c.tankCapacity →
        (fuelRun c s calls).currentFuel ≤ s.currentFuel ∧
        0 ≤ (fuelRun c s calls).currentFuel ∧
        (fuelRun c s calls).currentFuel ≤ c.tankCapacity := by
  intro calls
  induction calls with
  | nil => intro _ s h0 h1; exact ⟨le_refl _, h0, h1⟩
  | cons x rest ih =>
      intro hdts s h0 h1
      have hx := fuel_update_bounds c hb hd s h0 h1 x.rpm x.torque x.dt
        (hdts x (List.mem_cons_self x rest))
      have hrest := ih (fun y hy => hdts y (List.mem_cons_of_mem x hy))
        (FuelSystem.update c s x.rpm x.torque x.dt) hx.2.1 hx.2.2
      exact ⟨le_trans hrest.1 hx.1, hrest.2.1, hrest.2.2⟩

/-- C2, confirmed.  With nonnegative BSFC and positive fuel density: the fuel
level is non-increasing and stays in `[0, tankCapacity]` under any sequence
of `update` calls with nonnegative `dt`; `update` is a no-op at level 0;
`isEmpty` holds exactly at level 0 (for nonnegative levels); and in the very
fixed step whose fuel update empties the tank, `fixedUpdate`'s stall check
leaves the engine's running flag `false`. -/
theorem C2_fuel_engine_stall (c : FuelConfig) (hb : 0 ≤ c.bsfc)
    (hd : 0 < c.fuelDensity) :
    (∀ (calls : List FuelCall), (∀ x ∈ calls, 0 ≤ x.dt) →
      ∀ s : FuelState, 0 ≤ s.currentFuel → s.currentFuel ≤ c.tankCapacity →
        (fuelRun c s calls).currentFuel ≤ s.currentFuel ∧
        0 ≤ (fuelRun c s calls).currentFuel ∧
        (fuelRun c s calls).currentFuel ≤ c.tankCapacity) ∧
    (∀ (s : FuelState) (rpm torque dt : ℝ), s.currentFuel = 0 →
      FuelSystem.update c s rpm torque dt = s) ∧
    (∀ s : FuelState, 0 ≤ s.currentFuel → (FuelSystem.isEmpty s ↔ s.currentFuel = 0)) ∧
    (∀ (vc : VehicleCfg) (s : VehicleState) (input : InputState)
      (wheelRpm speed dt : ℚ),
        FuelSystem.isEmpty (fixedUpdate vc s input wheelRpm speed dt).1.fuel →
        (fixedUpdate vc s input wheelRpm speed dt).1.engine.running = false) := by
  refine ⟨fuelRun_bounds c hb hd, ?_, ?_, ?_⟩
  · intro s rpm torque dt hz
    simp only [FuelSystem.update, hz]
    norm_num
  · intro s h0
    unfold FuelSystem.isEmpty
    constructor
    · intro h; linarith
    · intro h; linarith
  · intro vc s input wheelRpm speed dt hEmpty
    dsimp only [fixedUpdate] at hEmpty ⊢
    exact stall_check _ _ _ hEmpty

/-- Witness for C2: one full-tank update call at the physics timestep keeps
the level in `[0, 60]` without increasing it, and `isEmpty` at level 0. -/
theorem C2_fuel_engine_stall_witness :
    ((fuelRun fuelCfgX ⟨60⟩ [⟨800, 50, 1 / 60⟩]).currentFuel ≤ 60 ∧
      0 ≤ (fuelRun fuelCfgX ⟨60⟩ [⟨800, 50, 1 / 60⟩]).currentFuel ∧
      (fuelRun fuelCfgX ⟨60⟩ [⟨800, 50, 1 / 60⟩]).currentFuel ≤
        fuelCfgX.tankCapacity) ∧
    (FuelSystem.isEmpty (⟨0⟩ : FuelState) ↔ (0 : ℝ) = 0) := by
  have h := C2_fuel_engine_stall fuelCfgX (by norm_num [fuelCfgX])
    (by norm_num [fuelCfgX])
  have h1 := h.1 [⟨800, 50, 1 / 60⟩] (by intro x hx; simp at hx; subst hx; norm_num)
    ⟨60⟩ (by norm_num) (by norm_num [fuelCfgX])
  exact ⟨⟨by simpa [fuelCfgX] using h1.1, h1.2.1, h1.2.2⟩, h.2.2.1 ⟨0⟩ (le_refl 0)⟩

/-! ## C9 — refuel -/

/-- C9, corrected.  From any level in `[0, tankCapacity]`: `refuel()` with no
argument restores the level to exactly the capacity, and `refuel(x)` for
NONNEGATIVE `x` sets the level to `min (level + x) capacity`; for negative
`x` the code also clamps below at 0 (see the counterexample), which the
claim's "clamped to at most the tank capacity" does not describe. -/
theorem C9_refuel (c : FuelConfig) (s : FuelState) (h0 : 0 ≤ s.currentFuel)
    (h1 : s.currentFuel ≤ c.tankCapacity) :
    (FuelSystem.refuel c s none).currentFuel = c.tankCapacity ∧
    (∀ x : ℝ, 0 ≤ x →
      (FuelSystem.refuel c s (some x)).currentFuel =
        min (s.currentFuel + x) c.tankCapacity) := by
  have hcap : (0 : ℝ) ≤ c.tankCapacity := le_trans h0 h1
  constructor
  · simp only [FuelSystem.refuel, Option.getD, clampR]
    rw [min_eq_left (by linarith), max_eq_right hcap]
  · intro x hx
    simp only [FuelSystem.refuel, Option.getD, clampR]
    rw [max_eq_right (le_min hcap (by linarith)), min_comm]

/-- Witness for C9: from 50 L in a 60 L tank, `refuel()` fills to 60 and
`refuel(5)` lands on `min (50 + 5) 60`. -/
theorem C9_refuel_witness :
    (FuelSystem.refuel fuelCfgX ⟨50⟩ none).currentFuel = fuelCfgX.tankCapacity ∧
    (FuelSystem.refuel fuelCfgX ⟨50⟩ (some 5)).currentFuel =
      min ((50 : ℝ) + 5) fuelCfgX.tankCapacity := by
  have h := C9_refuel fuelCfgX ⟨50⟩ (by norm_num) (by norm_num [fuelCfgX])
  exact ⟨h.1, h.2 5 (by norm_num)⟩

/-- Counterexample to C9 as stated: `refuel(-100)` from 50 L does not set the
level to `min (50 + (-100)) 60 = -50`; the code clamps below at 0. -/
theorem C9_refuel_counterexample :
    (FuelSystem.refuel fuelCfgX ⟨50⟩ (some (-100))).currentFuel = 0 ∧
    min ((50 : ℝ) + (-100)) fuelCfgX.tankCapacity = -50 ∧ (0 : ℝ) ≠ -50 := by
  refine ⟨?_, ?_, by norm_num⟩
  · simp only [FuelSystem.refuel, Option.getD, clampR, fuelCfgX]
    rw [min_eq_right (by norm_num), max_eq_left (by norm_num)]
  · simp only [fuelCfgX]
    rw [min_eq_left (by norm_num)]
    norm_num

/-! ## C8 — no construction-time validation -/

/-- C8, corrected.  The constructors perform no validation: for EVERY
configuration — malformed ones included — they return the fully defined
initial state, and degradation surfaces downstream instead: a non-positive
tank capacity reads as already-empty fuel, and an empty gear list makes
`getCurrentGearRatio` fall back to 0 (`?? 0`) in a forward gear. -/
theorem C8_constructors_total (ce : EngineConfig) (ct : TransConfig)
    (cf : FuelConfig) :
    EngineSimulation.init ce = ⟨ce.idleRpm, true⟩ ∧
    AutoTransmission.init ct = ⟨1, 0, false⟩ ∧
    ManualTransmission.init ct = ⟨0, 0, false⟩ ∧
    FuelSystem.init cf = ⟨cf.tankCapacity⟩ ∧
    (cf.tankCapacity ≤ 0 → FuelSystem.isEmpty (FuelSystem.init cf)) ∧
    (ct.gearRatios = [] → getCurrentGearRatio ct ⟨1, 0, false⟩ = 0) := by
  refine ⟨rfl, rfl, rfl, rfl, fun h => h, fun h => ?_⟩
  simp only [getCurrentGearRatio, gearAt, h]
  norm_num [List.getD]

/-- Counterexample to C8 as stated: constructed on the malformed
configurations, every component initialises to a concrete well-defined state
instead of failing, and the empty-capacity tank silently reads empty. -/
theorem C8_constructors_total_counterexample :
    EngineSimulation.init badEngineCfg = ⟨800, true⟩ ∧
    AutoTransmission.init badTransCfg = ⟨1, 0, false⟩ ∧
    ManualTransmission.init badTransCfg = ⟨0, 0, false⟩ ∧
    FuelSystem.init badFuelCfg = ⟨-5⟩ ∧
    FuelSystem.isEmpty (FuelSystem.init badFuelCfg) ∧
    getCurrentGearRatio badTransCfg ⟨1, 0, false⟩ = 0 := by
  refine ⟨rfl, rfl, rfl, rfl, ?_, ?_⟩
  · show badFuelCfg.tankCapacity ≤ 0
    norm_num [badFuelCfg]
  · simp [getCurrentGearRatio, gearAt, badTransCfg]

/-- Witness for C8 at the malformed configurations (discharging the
degradation hypotheses concretely). -/
theorem C8_constructors_total_witness :
    FuelSystem.isEmpty (FuelSystem.init badFuelCfg) ∧
    getCurrentGearRatio badTransCfg ⟨1, 0, false⟩ = 0 := by
  have h := C8_constructors_total badEngineCfg badTransCfg badFuelCfg
  exact ⟨h.2.2.2.2.1 (by norm_num [badFuelCfg]), h.2.2.2.2.2 rfl⟩

/-! ## C7 — deterministic seeding of chunk decoration -/

lemma genProp_oracle_indep (rng : ℕ) (oi : ℕ) (tStart tEnd : ℚ) (o1 o2 : ℕ → ℚ) :
    (genProp rng o1 oi tStart tEnd).1 = (genProp rng o2 oi tStart tEnd).1 ∧
    (genProp rng o1 oi tStart tEnd).2.1 = (genProp rng o2 oi tStart tEnd).2.1 ∧
    placementCore (genProp rng o1 oi tStart tEnd).2.2 =
      placementCore (genProp rng o2 oi tStart tEnd).2.2 := by
  simp only [genProp]
  split_ifs <;> simp [placementCore, stripBlades]

lemma genProps_oracle_indep :
    ∀ (count rng oi : ℕ) (o1 o2 : ℕ → ℚ) (tStart tEnd : ℚ),
      (genProps count rng oi o1 tStart tEnd).map placementCore =
      (genProps count rng oi o2 tStart tEnd).map placementCore := by
  intro count
  induction count with
  | zero => intro rng oi o1 o2 t0 t1; rfl
  | succ m ih =>
      intro rng oi o1 o2 t0 t1
      obtain ⟨h1, h2, h3⟩ := genProp_oracle_indep rng oi t0 t1 o1 o2
      simp only [genProps, List.map_cons]
      rw [h3, h1, h2, ih (genProp rng o2 oi t0 t1).1
        (genProp rng o2 oi t0 t1).2.1 o1 o2 t0 t1]

/-- C7, corrected.  All pseudo-random draws that determine prop choice,
parameter `t`, side, road offset, yaw, and the cactus/rock/bush appearance
come from the generator seeded by `⌊tStart * 10000⌋`, so two runs over the
same chunk sub-range place identical decoration UP TO the internal blade
geometry of grass tufts — `createGrass` ignores the seeded generator (its
parameter is named `_random`) and draws blade sizes/positions/yaws from the
global `Math.random()`, so those may differ between runs (see the
counterexample).  Mile markers are fully deterministic. -/
theorem C7_seeded_determinism (totalLength tStart tEnd : ℚ) (o1 o2 : ℕ → ℚ) :
    ((generateProps totalLength tStart tEnd o1).1.map placementCore =
      (generateProps totalLength tStart tEnd o2).1.map placementCore) ∧
    (generateProps totalLength tStart tEnd o1).2 =
      (generateProps totalLength tStart tEnd o2).2 :=
  ⟨genProps_oracle_indep _ _ _ o1 o2 tStart tEnd, rfl⟩

/-- Counterexample to C7 as stated: chunk 3 of a 10000 m road
(`tStart = 3/20`, seed 1500) places one prop, a grass tuft; its blades come
from the global `Math.random()`, so two runs under different global streams
produce different decoration. -/
theorem C7_seeded_determinism_counterexample :
    generateProps 10000 (3 / 20) (4 / 20) (fun _ => 0) ≠
    generateProps 10000 (3 / 20) (4 / 20) (fun _ => 1 / 2) := by
  intro h
  have h1 := congrArg (fun r => r.1.map (fun p => p.app)) h
  simp only [generateProps] at h1
  rw [show ⌊(10000 : ℚ) * (4 / 20 - 3 / 20) * PROP_DENSITY⌋ = (1 : ℤ) by
        norm_num [PROP_DENSITY],
      show ⌊(3 : ℚ) / 20 * 10000⌋ = (1500 : ℤ) by norm_num,
      show ((1 : ℤ)).toNat = 1 from rfl,
      show ((1500 : ℤ)).toNat = 1500 from rfl] at h1
  norm_num [genProps, genProp, rngDraw, rngStep, mkGrass, mkBlade,
    MIN_ROAD_OFFSET, MAX_ROAD_OFFSET] at h1

/-! ## C10 — the all-zero generator of chunk 0 -/

lemma genProp_zero (o : ℕ → ℚ) (oi : ℕ) (t0 t1 : ℚ) :
    genProp 0 o oi t0 t1 =
      (0, oi, ⟨t0, -1, 8, 0, Appearance.cactus (3 / 2) none⟩) := by
  norm_num [genProp, rngDraw, rngStep, MIN_ROAD_OFFSET, MAX_ROAD_OFFSET]

lemma genProps_zero (o : ℕ → ℚ) (t0 t1 : ℚ) :
    ∀ (n oi : ℕ), genProps n 0 oi o t0 t1 =
      List.replicate n ⟨t0, -1, 8, 0, Appearance.cactus (3 / 2) none⟩ := by
  intro n
  induction n with
  | zero => intro oi; rfl
  | succ m ih =>
      intro oi
      simp only [genProps, genProp_zero, List.replicate]
      rw [ih oi]

/-- C10, confirmed.  Chunk 0 starts at `tStart = 0`, so the decoration seed
`⌊tStart * 10000⌋` is 0; the generator step maps 0 to 0, so every `random()`
of that chunk returns exactly 0, and consequently every natural prop of
chunk 0 sits at parameter `t = tStart = 0` on side `-1` at the minimum road
offset 8 with yaw draw 0, in the first prop-type branch (a cactus of height
1.5 with no arm). -/
theorem C10_chunk_zero_degenerate (totalLength tEnd : ℚ) (o : ℕ → ℚ) :
    ⌊(0 : ℚ) * 10000⌋ = 0 ∧ rngStep 0 = 0 ∧ rngDraw 0 = (0, 0) ∧
    (∀ p ∈ (generateProps totalLength 0 tEnd o).1,
      p.t = 0 ∧ p.side = -1 ∧ p.offset = 8 ∧ p.rotU = 0 ∧
      p.app = Appearance.cactus (3 / 2) none) := by
  refine ⟨by norm_num, rfl, by norm_num [rngDraw, rngStep], ?_⟩
  intro p hp
  simp only [generateProps] at hp
  rw [show (⌊(0 : ℚ) * 10000⌋).toNat = 0 by norm_num] at hp
  rw [genProps_zero] at hp
  rw [List.eq_of_mem_replicate hp]
  exact ⟨rfl, rfl, rfl, rfl, rfl⟩

/-- Witness for C10 on a 20000 m road's chunk 0 (`tEnd = 1/20`): the chunk
holds three identical degenerate cacti; the first is a member and satisfies
all the degenerate-placement equations. -/
theorem C10_chunk_zero_degenerate_witness :
    (⟨0, -1, 8, 0, Appearance.cactus (3 / 2) none⟩ : PropPlacement) ∈
      (generateProps 20000 0 (1 / 20) (fun _ => 0)).1 ∧
    ((⟨0, -1, 8, 0, Appearance.cactus (3 / 2) none⟩ : PropPlacement).t = 0 ∧
      (⟨0, -1, 8, 0, Appearance.cactus (3 / 2) none⟩ : PropPlacement).app =
        Appearance.cactus (3 / 2) none) := by
  have hmem : (⟨0, -1, 8, 0, Appearance.cactus (3 / 2) none⟩ : PropPlacement) ∈
      (generateProps 20000 0 (1 / 20) (fun _ => 0)).1 := by
    simp only [generateProps]
    rw [show (⌊(0 : ℚ) * 10000⌋).toNat = 0 by norm_num]
    rw [show ⌊(20000 : ℚ) * (1 / 20 - 0) * PROP_DENSITY⌋ = (3 : ℤ) by
      norm_num [PROP_DENSITY]]
    rw [show ((3 : ℤ)).toNat = 3 from rfl]
    rw [genProps_zero]
    simp [List.mem_replicate]
  have h := (C10_chunk_zero_degenerate 20000 (1 / 20) (fun _ => 0)).2.2.2 _ hmem
  exact ⟨hmem, h.1, h.2.2.2.2⟩
